import Mathlib

/-!
# GUARDIAN-V — verification of the `/api/verify` handler (src/server.ts)

Shallow embedding of the Express handler `POST /api/verify` in `src/server.ts`.

Modelling conventions:
* JavaScript numbers are modelled as exact rationals extended with a `nan`
  element (`JsNum`); `undefined + x` and any arithmetic touching `nan`
  yields `nan`, and every `>` comparison against `nan` is `false`, as in JS.
* The two upstream `generateContent` calls are modelled by an
  `EngineOutcome` value per call: the call may reject (`callFailed`), resolve
  with a falsy `response.text` (so `JSON.parse(text || "\x7b\x7d")` yields the
  empty object, `emptyText`), resolve with unparsable text (`JSON.parse`
  throws, `malformedText`), or resolve with a parsed JSON body (`body`).
* `Math.random().toString(36).substr(2, 9)` and `new Date().toISOString()`
  are modelled as explicit inputs `randomId` and `nowTimestamp`: the handler is
  a pure function of its request, the engine outcomes, and these two values.
* `verify` also returns the ordered list of engine calls the handler issues,
  with the payload each call was given, so that dispatch order and data
  dependencies between the calls are visible in the model.
-/

namespace GuardianV

/-- A JavaScript number: either NaN or an exact rational. -/
inductive JsNum where
  | nan : JsNum
  | num : ℚ → JsNum
deriving DecidableEq, Repr

/-- JS addition of two possibly-undefined JSON number fields:
`undefined + x` is NaN, otherwise exact addition. -/
def jsAdd : Option ℚ → Option ℚ → JsNum
  | some a, some b => .num (a + b)
  | _, _ => .nan

/-- JS division by 2 (`/ 2` on line 51): NaN propagates. -/
def jsHalf : JsNum → JsNum
  | .nan => .nan
  | .num q => .num (q / 2)

/-- JS strict `>` against a numeric literal: `NaN > t` is `false`. -/
def jsGt (c : JsNum) (t : ℚ) : Bool :=
  match c with
  | .nan => false
  | .num q => decide (t < q)

/-- An anomaly descriptor as produced by the vision engine
(`anomalies` array elements: field, reason, severity). -/
structure Anomaly where
  field : String
  reason : String
  severity : String
deriving DecidableEq, Repr

/-- Parsed JSON body of the vision engine response (line 39):
the prompt requests `confidence` (0-1), `anomalies` (array), `isAuthentic`
(boolean); any field may be absent from the actual JSON. -/
structure VisionBody where
  confidence : Option ℚ
  anomalies : Option (List Anomaly)
  isAuthentic : Option Bool
deriving DecidableEq, Repr

/-- The result of `JSON.parse` on the empty-object fallback: no fields. -/
def VisionBody.emptyObject : VisionBody := ⟨none, none, none⟩

/-- Parsed JSON body of the logic engine response (line 48): the prompt
requests `logicScore` (0-1) and `discrepancies` (array). -/
structure LogicBody where
  logicScore : Option ℚ
  discrepancies : Option (List String)
deriving DecidableEq, Repr

/-- The result of `JSON.parse` on the empty-object fallback: no fields. -/
def LogicBody.emptyObject : LogicBody := ⟨none, none⟩

/-- The three status strings of the ternary on line 55. -/
inductive Status where
  | VERIFIED
  | PENDING_HITL
  | REJECTED
deriving DecidableEq, Repr

/-- Line 51: `finalConfidence = (visionResult.confidence + logicResult.logicScore) / 2`.
No other field of either body is read. -/
def finalConfidence (v : VisionBody) (l : LogicBody) : JsNum :=
  jsHalf (jsAdd v.confidence l.logicScore)

/-- Line 55: `finalConfidence > 0.85 ? "VERIFIED" : (finalConfidence > 0.6 ?
"PENDING_HITL" : "REJECTED")`. -/
def route (c : JsNum) : Status :=
  if jsGt c (85/100) then .VERIFIED
  else if jsGt c (6/10) then .PENDING_HITL
  else .REJECTED

/-- Outcome of one `ai.models.generateContent` call, as seen by the handler
after the `JSON.parse(response.text || "\x7b\x7d")` step. -/
inductive EngineOutcome (β : Type) where
  | callFailed : EngineOutcome β
  | emptyText : EngineOutcome β
  | malformedText : EngineOutcome β
  | body : β → EngineOutcome β
deriving DecidableEq, Repr

/-- The `JSON.parse(response.text || "\x7b\x7d")` step (lines 39 and 48):
a rejected call or a `JSON.parse` exception propagates to the catch block
(`Except.error`), a falsy `response.text` falls back to the empty object. -/
def parseJsonOrEmpty {β : Type} (emptyBody : β) : EngineOutcome β → Except Unit β
  | .callFailed => .error ()
  | .emptyText => .ok emptyBody
  | .malformedText => .error ()
  | .body b => .ok b

/-- Server configuration: `process.env.GEMINI_API_KEY` (line 18). -/
structure Config where
  geminiApiKey : Option String
deriving DecidableEq, Repr

/-- Request body fields destructured on line 16; each may be absent. -/
structure VerifyRequest where
  documentImage : Option String
  documentType : Option String
  contextData : Option String
deriving DecidableEq, Repr

/-- `documentImage.split(',')[1]` (line 32): the fragment after the first
comma, or `undefined` when there is none. -/
def splitAfterComma (s : String) : Option String :=
  (s.splitOn ",")[1]?

/-- The model name used for both calls (lines 27 and 43). -/
def geminiModel : String := "gemini-3.1-pro-preview"

/-- One engine invocation with the payload the handler gave it. The logic
call (lines 42-46) embeds the already-parsed vision result in its prompt. -/
inductive EngineCall where
  | vision : (model : String) → (documentType : Option String) →
      (imageData : Option String) → EngineCall
  | logic : (model : String) → (contextData : Option String) →
      (documentData : VisionBody) → EngineCall
deriving DecidableEq, Repr

/-- Which engine a call addresses. -/
def engineName : EngineCall → String
  | .vision _ _ _ => "vision"
  | .logic _ _ _ => "logic"

/-- Body of the 200 response (lines 53-60). -/
structure SuccessBody where
  id : String
  status : Status
  confidence : JsNum
  vision : VisionBody
  logic : LogicBody
  timestamp : String
deriving DecidableEq, Repr

/-- A handler response: an error JSON with an HTTP status code, or the 200
decision JSON. -/
inductive HttpResponse where
  | error : (code : Nat) → (message : String) → HttpResponse
  | success : SuccessBody → HttpResponse
deriving DecidableEq, Repr

/-- True exactly on the 200 decision responses. -/
def HttpResponse.isDecision : HttpResponse → Bool
  | .success _ => true
  | .error _ _ => false

/-- The deterministic content of a response: everything except the
`Math.random` id and the clock timestamp. -/
def responseCore : HttpResponse →
    Except (Nat × String) (Status × JsNum × VisionBody × LogicBody)
  | .error code msg => .error (code, msg)
  | .success b => .ok (b.status, b.confidence, b.vision, b.logic)

/-- The `POST /api/verify` handler (lines 15-65), as a pure function of the
configuration, the request body, the outcome of each of the two engine calls,
and the sampled random id and timestamp. Returns the response together with
the ordered list of engine calls issued.

Paths, following the source:
* missing `GEMINI_API_KEY` → 500 `"API Key not configured"` (lines 18-20),
  before the try block, no engine call;
* missing `documentImage` → `documentImage.split` throws a TypeError inside
  the try block → catch → 500 `"Verification failed"`, no engine call;
* the vision call rejects or its text is unparsable → catch → 500
  `"Verification failed"` after one call;
* the logic call rejects or its text is unparsable → catch → 500
  `"Verification failed"` after two calls;
* otherwise the 200 decision response of lines 53-60. -/
def verify (cfg : Config) (req : VerifyRequest)
    (visionOutcome : EngineOutcome VisionBody)
    (logicOutcome : EngineOutcome LogicBody)
    (randomId : String) (nowTimestamp : String) :
    HttpResponse × List EngineCall :=
  match cfg.geminiApiKey with
  | none => (.error 500 "API Key not configured", [])
  | some _ =>
    match req.documentImage with
    | none => (.error 500 "Verification failed", [])
    | some img =>
      let visionCall : EngineCall :=
        .vision geminiModel req.documentType (splitAfterComma img)
      match parseJsonOrEmpty VisionBody.emptyObject visionOutcome with
      | .error _ => (.error 500 "Verification failed", [visionCall])
      | .ok visionResult =>
        let logicCall : EngineCall :=
          .logic geminiModel req.contextData visionResult
        match parseJsonOrEmpty LogicBody.emptyObject logicOutcome with
        | .error _ => (.error 500 "Verification failed", [visionCall, logicCall])
        | .ok logicResult =>
          let c := finalConfidence visionResult logicResult
          (.success ⟨randomId, route c, c, visionResult, logicResult, nowTimestamp⟩,
           [visionCall, logicCall])

/-- Number of high-severity anomaly descriptors reported by the vision body
(the handler itself never reads this). -/
def highSeverityCount (v : VisionBody) : Nat :=
  ((v.anomalies.getD []).filter (fun a => a.severity == "high")).length

/-- Modelled from the spec (§4.4): the renormalized weighted sum over the
available signals — each signal is a weight paired with an optional
confidence, missing signals are excluded and the remaining weights
renormalized; `none` when no signal is available. -/
def specAggregate (signals : List (ℚ × Option ℚ)) : Option ℚ :=
  let avail := signals.filterMap (fun p => p.2.map (fun c => (p.1, c)))
  let totalWeight := (avail.map Prod.fst).sum
  if totalWeight = 0 then none
  else some ((avail.map (fun p => p.1 * p.2)).sum / totalWeight)

/-- Membership of a computed confidence in the unit interval. -/
def inUnitInterval : JsNum → Bool
  | .nan => false
  | .num q => decide (0 ≤ q) && decide (q ≤ 1)

/-- Order on computed confidences mirroring JS `<=` : any comparison with
NaN is false. -/
def JsNum.le : JsNum → JsNum → Prop
  | .num a, .num b => a ≤ b
  | _, _ => False

/-- C1 counterexample: at final confidence exactly 0.85 the routing ternary
of line 55 uses strict `>`, so the code yields PENDING_HITL, refuting
"status is VERIFIED if and only if c ≥ 0.85". -/
theorem routeTieAtUpperThreshold :
    route (JsNum.num (85/100)) = Status.PENDING_HITL ∧
    decide ((85/100 : ℚ) ≥ 85/100) = true ∧
    decide (Status.PENDING_HITL = Status.VERIFIED) = false := by
  refine ⟨?_, by simp, by decide⟩
  simp [route, jsGt]
  norm_num

/-- C1 amended: routing uses strict comparisons, so both ties resolve to the
lower-trust band: VERIFIED iff c > 0.85, PENDING_HITL iff 0.60 < c ≤ 0.85,
REJECTED iff c ≤ 0.60. -/
theorem routeBandsStrict (c : ℚ) :
    (route (JsNum.num c) = Status.VERIFIED ↔ 85/100 < c) ∧
    (route (JsNum.num c) = Status.PENDING_HITL ↔ 6/10 < c ∧ c ≤ 85/100) ∧
    (route (JsNum.num c) = Status.REJECTED ↔ c ≤ 6/10) := by
  refine ⟨?_, ?_, ?_⟩ <;>
    (simp [route, jsGt]; split_ifs with h1 h2 <;> simp_all <;> linarith)

/-- C6: for well-formed inputs (both engine confidences present and in
[0,1]) the final confidence lies in [0,1], and routing is total: it always
produces one of the three statuses. -/
theorem finalConfidenceInUnitInterval (v l : ℚ) (va : Option (List Anomaly))
    (ia : Option Bool) (ds : Option (List String))
    (hv0 : 0 ≤ v) (hv1 : v ≤ 1) (hl0 : 0 ≤ l) (hl1 : l ≤ 1) :
    inUnitInterval (finalConfidence ⟨some v, va, ia⟩ ⟨some l, ds⟩) = true ∧
    (route (finalConfidence ⟨some v, va, ia⟩ ⟨some l, ds⟩) = Status.VERIFIED ∨
     route (finalConfidence ⟨some v, va, ia⟩ ⟨some l, ds⟩) = Status.PENDING_HITL ∨
     route (finalConfidence ⟨some v, va, ia⟩ ⟨some l, ds⟩) = Status.REJECTED) := by
  constructor
  · simp only [finalConfidence, jsAdd, jsHalf, inUnitInterval, Bool.and_eq_true,
      decide_eq_true_eq]
    constructor <;> [linarith; linarith]
  · unfold route
    split_ifs <;> simp

/-- C6 witness: the bound holds at vision confidence 0 and logic score 1. -/
theorem finalConfidenceInUnitIntervalWitness :
    inUnitInterval (finalConfidence ⟨some 0, none, none⟩ ⟨some 1, none⟩) = true ∧
    (route (finalConfidence ⟨some 0, none, none⟩ ⟨some 1, none⟩) = Status.VERIFIED ∨
     route (finalConfidence ⟨some 0, none, none⟩ ⟨some 1, none⟩) = Status.PENDING_HITL ∨
     route (finalConfidence ⟨some 0, none, none⟩ ⟨some 1, none⟩) = Status.REJECTED) :=
  finalConfidenceInUnitInterval 0 1 none none none
    (by decide) (by decide) (by decide) (by decide)

/-- C7: aggregation is monotone in each available signal's confidence
(vision and logic are the two signals the code has), and the anomaly
descriptors are never read by the aggregation, so a larger high-severity
anomaly count never increases the final confidence. -/
theorem aggregationMonotone (v v' l l' : ℚ) (va va' : Option (List Anomaly))
    (ia : Option Bool) (ds : Option (List String))
    (hv : v ≤ v') (hl : l ≤ l')
    (hcount : highSeverityCount ⟨some v, va, ia⟩ ≤ highSeverityCount ⟨some v, va', ia⟩) :
    JsNum.le (finalConfidence ⟨some v, va, ia⟩ ⟨some l, ds⟩)
        (finalConfidence ⟨some v', va, ia⟩ ⟨some l, ds⟩) ∧
    JsNum.le (finalConfidence ⟨some v, va, ia⟩ ⟨some l, ds⟩)
        (finalConfidence ⟨some v, va, ia⟩ ⟨some l', ds⟩) ∧
    JsNum.le (finalConfidence ⟨some v, va', ia⟩ ⟨some l, ds⟩)
        (finalConfidence ⟨some v, va, ia⟩ ⟨some l, ds⟩) := by
  refine ⟨?_, ?_, ?_⟩ <;> simp only [finalConfidence, jsAdd, jsHalf, JsNum.le] <;> linarith

/-- C7 witness: monotonicity at vision 0 vs 1, logic 0 vs 1, with the
high-severity anomaly count growing from 0 to 1. -/
theorem aggregationMonotoneWitness :
    JsNum.le (finalConfidence ⟨some 0, none, none⟩ ⟨some 0, none⟩)
        (finalConfidence ⟨some 1, none, none⟩ ⟨some 0, none⟩) ∧
    JsNum.le (finalConfidence ⟨some 0, none, none⟩ ⟨some 0, none⟩)
        (finalConfidence ⟨some 0, none, none⟩ ⟨some 1, none⟩) ∧
    JsNum.le
        (finalConfidence ⟨some 0, some [⟨"expiry", "kerning mismatch", "high"⟩], none⟩
          ⟨some 0, none⟩)
        (finalConfidence ⟨some 0, none, none⟩ ⟨some 0, none⟩) :=
  aggregationMonotone 0 1 0 1 none (some [⟨"expiry", "kerning mismatch", "high"⟩])
    none none (by decide) (by decide) (by decide)

/-- C10 counterexample: an out-of-range final confidence need not fall
through both comparisons: engine confidences 3 and 1 give final confidence
2, which satisfies the first comparison and is routed VERIFIED, not
REJECTED, in a 200 response. -/
theorem aboveRangeConfidenceVerified :
    (verify ⟨some "key"⟩ ⟨some "img", none, none⟩
        (.body ⟨some 3, none, none⟩) (.body ⟨some 1, none⟩) "id0" "t0").1
      = HttpResponse.success ⟨"id0", Status.VERIFIED, JsNum.num 2,
          ⟨some 3, none, none⟩, ⟨some 1, none⟩, "t0"⟩ ∧
    decide (Status.VERIFIED = Status.REJECTED) = false := by
  constructor
  · have h2 : finalConfidence ⟨some 3, none, none⟩ ⟨some (1 : ℚ), none⟩ = JsNum.num 2 := by
      simp [finalConfidence, jsAdd, jsHalf]
      norm_num
    have hr : route (JsNum.num 2) = Status.VERIFIED := by
      simp [route, jsGt]
      norm_num
    simp [verify, parseJsonOrEmpty, h2, hr]
  · decide

/-- C10 amended: every 200 response's status is the routing of the computed
final confidence and the routing is total into the three statuses; NaN and
any confidence ≤ 0.6 (in particular every below-range value) fall through
both comparisons and yield REJECTED, while any confidence > 0.85 (including
above-range values) yields VERIFIED. -/
theorem statusTotalRouting :
    (∀ c : JsNum, route c = Status.VERIFIED ∨ route c = Status.PENDING_HITL ∨
      route c = Status.REJECTED) ∧
    route JsNum.nan = Status.REJECTED ∧
    (∀ q : ℚ, q ≤ 6/10 → route (JsNum.num q) = Status.REJECTED) ∧
    (∀ q : ℚ, 85/100 < q → route (JsNum.num q) = Status.VERIFIED) ∧
    (∀ (k img : String) (dt cd : Option String) (vb : VisionBody) (lb : LogicBody)
      (r t : String),
      (verify ⟨some k⟩ ⟨some img, dt, cd⟩ (.body vb) (.body lb) r t).1
        = HttpResponse.success ⟨r, route (finalConfidence vb lb),
            finalConfidence vb lb, vb, lb, t⟩) := by
  refine ⟨?_, rfl, ?_, ?_, ?_⟩
  · intro c
    unfold route
    split_ifs <;> simp
  · intro q hq
    unfold route
    split_ifs with h1 h2
    · exfalso; simp only [jsGt, decide_eq_true_eq] at h1; linarith
    · exfalso; simp only [jsGt, decide_eq_true_eq] at h2; linarith
    · rfl
  · intro q hq
    unfold route
    split_ifs with h1 h2
    · rfl
    · exfalso; simp only [jsGt, decide_eq_true_eq] at h1; exact h1 hq
    · exfalso; simp only [jsGt, decide_eq_true_eq] at h1; exact h1 hq
  · intro k img dt cd vb lb r t
    rfl

/-- C10 amended witness: the REJECTED band at confidence 0 and the VERIFIED
band at confidence 1. -/
theorem statusTotalRoutingWitness :
    route (JsNum.num 0) = Status.REJECTED ∧ route (JsNum.num 1) = Status.VERIFIED :=
  ⟨statusTotalRouting.2.2.1 0 (by norm_num), statusTotalRouting.2.2.2.1 1 (by norm_num)⟩

/-- C2 counterexample: when every engine call fails (the vision call rejects,
so the logic call is never even dispatched), the handler lands in the catch
block and returns the generic 500 error, not a REJECTED decision, and the
message is not "evidence collection failure". -/
theorem bothEnginesFailGenericError :
    (verify ⟨some "key"⟩ ⟨some "img", none, none⟩ .callFailed .callFailed
        "id0" "t0").1 = HttpResponse.error 500 "Verification failed" ∧
    (HttpResponse.error 500 "Verification failed").isDecision = false ∧
    decide ("Verification failed" = "evidence collection failure") = false :=
  ⟨rfl, rfl, by decide⟩

/-- C2 amended: when all evidence-engine calls fail, the request terminates
with HTTP 500 and body error "Verification failed" — a generic error carrying
no status and no reason — after a single vision call. -/
theorem bothEnginesFailAmended (k img : String) (dt cd : Option String)
    (r t : String) :
    verify ⟨some k⟩ ⟨some img, dt, cd⟩ .callFailed .callFailed r t
      = (HttpResponse.error 500 "Verification failed",
         [EngineCall.vision geminiModel dt (splitAfterComma img)]) ∧
    ((verify ⟨some k⟩ ⟨some img, dt, cd⟩ .callFailed .callFailed r t).1).isDecision
      = false :=
  ⟨rfl, rfl⟩

/-- C3 counterexample: an empty vision response body falls back to
`JSON.parse("\x7b\x7d")`, and the handler proceeds to a 200 decision whose
confidence is NaN (undefined + logicScore), rather than treating the signal
as an engine failure and excluding it. -/
theorem emptyVisionBodyYieldsNanDecision :
    (verify ⟨some "key"⟩ ⟨some "img", none, none⟩ .emptyText
        (.body ⟨some (9/10), none⟩) "id0" "t0").1
      = HttpResponse.success ⟨"id0", Status.REJECTED, JsNum.nan,
          VisionBody.emptyObject, ⟨some (9/10), none⟩, "t0"⟩ ∧
    ((verify ⟨some "key"⟩ ⟨some "img", none, none⟩ .emptyText
        (.body ⟨some (9/10), none⟩) "id0" "t0").1).isDecision = true ∧
    inUnitInterval JsNum.nan = false :=
  ⟨rfl, rfl, rfl⟩

/-- C3 amended: a syntactically malformed (non-empty) engine response aborts
the whole request with the generic 500 error; an empty response instead
falls back to the empty JSON object and the decision proceeds with an
undefined score, yielding a NaN final confidence and a REJECTED 200
decision — the signal is neither excluded nor renormalized. -/
theorem malformedVsEmptyAmended (k img : String) (dt cd : Option String)
    (lo : EngineOutcome LogicBody) (vb : VisionBody) (lb : LogicBody)
    (r t : String) :
    (verify ⟨some k⟩ ⟨some img, dt, cd⟩ .malformedText lo r t).1
      = HttpResponse.error 500 "Verification failed" ∧
    (verify ⟨some k⟩ ⟨some img, dt, cd⟩ (.body vb) .malformedText r t).1
      = HttpResponse.error 500 "Verification failed" ∧
    (verify ⟨some k⟩ ⟨some img, dt, cd⟩ .emptyText (.body lb) r t).1
      = HttpResponse.success ⟨r, Status.REJECTED, JsNum.nan,
          VisionBody.emptyObject, lb, t⟩ := by
  refine ⟨rfl, rfl, ?_⟩
  obtain ⟨ls, dsc⟩ := lb
  cases ls <;> rfl

/-- C4 counterexample: with the vision signal missing and the logic score
0.9, the spec's renormalized weighted sum over the available signals gives
0.9, but the code's aggregation gives NaN — the missing signal is not
excluded and nothing is renormalized. -/
theorem missingSignalNotRenormalized :
    finalConfidence ⟨none, none, none⟩ ⟨some (9/10), none⟩ = JsNum.nan ∧
    specAggregate [((1:ℚ)/2, none), ((1:ℚ)/2, some (9/10))] = some (9/10) ∧
    decide (JsNum.nan = JsNum.num (9/10)) = false := by
  refine ⟨rfl, ?_, decide_eq_false (fun h => JsNum.noConfusion h)⟩
  simp [specAggregate]
  norm_num

/-- C4 amended: the final confidence is the fixed equal-weight average
(v + l) / 2 of exactly the vision confidence and the logic score — which
agrees with the spec's renormalized weighted sum over those two signals when
both are present — but there is no forensic signal at all, and a missing
signal is not excluded with renormalization: it propagates as NaN. -/
theorem fixedAverageAggregation (v l : ℚ) (va : Option (List Anomaly))
    (ia : Option Bool) (ds ds2 : Option (List String)) (vb : VisionBody)
    (lb : LogicBody) :
    finalConfidence ⟨some v, va, ia⟩ ⟨some l, ds⟩ = JsNum.num ((v + l) / 2) ∧
    specAggregate [((1:ℚ)/2, some v), ((1:ℚ)/2, some l)] = some ((v + l) / 2) ∧
    finalConfidence ⟨none, va, ia⟩ lb = JsNum.nan ∧
    finalConfidence vb ⟨none, ds2⟩ = JsNum.nan := by
  refine ⟨rfl, ?_, ?_, ?_⟩
  · simp [specAggregate]
    ring
  · obtain ⟨ls, dsc⟩ := lb
    cases ls <;> rfl
  · obtain ⟨vc, va2, ia2⟩ := vb
    cases vc <;> rfl

/-- C5 counterexample: two runs on identical inputs (same request, same
engine outcomes, same clock reading) with different `Math.random` samples
produce different 200 responses — the id field differs — so the response is
not identical in every field. -/
theorem randomIdBreaksDeterminism :
    decide ((verify ⟨some "key"⟩ ⟨some "img", none, none⟩ .emptyText .emptyText
        "id1" "t0").1
      = (verify ⟨some "key"⟩ ⟨some "img", none, none⟩ .emptyText .emptyText
        "id2" "t0").1) = false ∧
    (verify ⟨some "key"⟩ ⟨some "img", none, none⟩ .emptyText .emptyText
        "id1" "t0").1
      = HttpResponse.success ⟨"id1", Status.REJECTED, JsNum.nan,
          VisionBody.emptyObject, LogicBody.emptyObject, "t0"⟩ ∧
    (verify ⟨some "key"⟩ ⟨some "img", none, none⟩ .emptyText .emptyText
        "id2" "t0").1
      = HttpResponse.success ⟨"id2", Status.REJECTED, JsNum.nan,
          VisionBody.emptyObject, LogicBody.emptyObject, "t0"⟩ :=
  ⟨by decide, rfl, rfl⟩

/-- C5 amended: everything in the response except the `Math.random` id and
the clock timestamp — the status, the confidence, the two echoed engine
results, and any error response — is a deterministic function of the request
and the engine outcomes, as is the sequence of engine calls issued; the id
and timestamp fields are hidden nondeterminism. -/
theorem decisionCoreDeterministic (cfg : Config) (req : VerifyRequest)
    (vo : EngineOutcome VisionBody) (lo : EngineOutcome LogicBody)
    (r r' t t' : String) :
    responseCore (verify cfg req vo lo r t).1
      = responseCore (verify cfg req vo lo r' t').1 ∧
    (verify cfg req vo lo r t).2 = (verify cfg req vo lo r' t').2 := by
  obtain ⟨key⟩ := cfg
  obtain ⟨di, dt, cd⟩ := req
  cases key <;> cases di <;> cases vo <;> cases lo <;> exact ⟨rfl, rfl⟩

/-- C8 counterexample: a validation failure (request with no documentImage)
and a transient upstream engine failure produce the identical error
response, so the two classes are not caller-distinguishable. -/
theorem validationAndUpstreamIndistinguishable :
    (verify ⟨some "key"⟩ ⟨none, none, none⟩ .callFailed .callFailed "id0" "t0").1
      = (verify ⟨some "key"⟩ ⟨some "img", none, none⟩ .callFailed .callFailed
          "id0" "t0").1 ∧
    (verify ⟨some "key"⟩ ⟨none, none, none⟩ .callFailed .callFailed "id0" "t0").1
      = HttpResponse.error 500 "Verification failed" :=
  ⟨rfl, rfl⟩

/-- C8 amended: only the configuration failure is distinguishable (500 "API
Key not configured"); a malformed payload and an upstream engine failure
both produce the same 500 "Verification failed" response. -/
theorem errorClassesAmended (k img : String) (dt cd dt2 cd2 : Option String)
    (vo : EngineOutcome VisionBody) (lo lo2 : EngineOutcome LogicBody)
    (r t r2 t2 : String) :
    (verify ⟨none⟩ ⟨some img, dt, cd⟩ vo lo r t).1
      = HttpResponse.error 500 "API Key not configured" ∧
    (verify ⟨some k⟩ ⟨none, dt, cd⟩ vo lo r t).1
      = HttpResponse.error 500 "Verification failed" ∧
    (verify ⟨some k⟩ ⟨some img, dt2, cd2⟩ .callFailed lo2 r2 t2).1
      = HttpResponse.error 500 "Verification failed" ∧
    decide ("API Key not configured" = "Verification failed") = false :=
  ⟨rfl, rfl, rfl, by decide⟩

/-- C9 counterexample: on a fully successful run the handler's call trace is
exactly a vision call followed by a logic call — it contains no forensic
call at all, so no Vision and Forensic pair is ever dispatched, concurrently
or otherwise. -/
theorem noForensicCallMade :
    ((verify ⟨some "key"⟩ ⟨some "img", none, none⟩ (.body ⟨some 1, none, none⟩)
        (.body ⟨some 1, none⟩) "id0" "t0").2).map engineName
      = ["vision", "logic"] ∧
    (((verify ⟨some "key"⟩ ⟨some "img", none, none⟩ (.body ⟨some 1, none, none⟩)
        (.body ⟨some 1, none⟩) "id0" "t0").2).map engineName).contains "forensic"
      = false :=
  ⟨rfl, rfl⟩

/-- C9 amended: the handler issues at most two engine calls, always vision
first and logic second, never a forensic call; the calls are sequential, not
concurrent: on the success path the logic call's payload embeds the parsed
vision result, so it cannot be dispatched before the vision call completes. -/
theorem sequentialVisionThenLogic (cfg : Config) (req : VerifyRequest)
    (vo : EngineOutcome VisionBody) (lo : EngineOutcome LogicBody)
    (k img : String) (dt cd : Option String) (vb : VisionBody) (lb : LogicBody)
    (r t : String) :
    (((verify cfg req vo lo r t).2).map engineName = [] ∨
     ((verify cfg req vo lo r t).2).map engineName = ["vision"] ∨
     ((verify cfg req vo lo r t).2).map engineName = ["vision", "logic"]) ∧
    ((((verify cfg req vo lo r t).2).map engineName).contains "forensic" = false) ∧
    (verify ⟨some k⟩ ⟨some img, dt, cd⟩ (.body vb) (.body lb) r t).2
      = [EngineCall.vision geminiModel dt (splitAfterComma img),
         EngineCall.logic geminiModel cd vb] := by
  refine ⟨?_, ?_, rfl⟩
  · obtain ⟨key⟩ := cfg; obtain ⟨di, dt2, cd2⟩ := req
    cases key <;> cases di <;> cases vo <;> cases lo <;>
      simp [verify, parseJsonOrEmpty, engineName]
  · obtain ⟨key⟩ := cfg; obtain ⟨di, dt2, cd2⟩ := req
    cases key <;> cases di <;> cases vo <;> cases lo <;> rfl

end GuardianV
